import Mathlib

/-!
Shallow embedding of the migration-validation API route
(`src/app/api/migrations/validate/route.ts`) of the tc9-migration-tool
repository, together with proofs of the specified properties.

The route's external collaborators (organisation lookup, template registry,
record-selection validator, validation engine, auth/usage tracking) are
modelled as an explicit environment of oracles; fallible downstream calls
return `Except String α`, the `String` being the thrown error's message.
The handler is a pure function from the parsed request body and the
environment to an HTTP response paired with a trace of collaborator calls.
-/

set_option maxHeartbeats 1000000
set_option maxRecDepth 16384

/-- JavaScript-style prefix test on character lists:
`isPrefixList pat s` is `true` when `pat` is a prefix of `s`. -/
def isPrefixList : List Char → List Char → Bool
  | [], _ => true
  | _ :: _, [] => false
  | p :: ps, c :: cs => p == c && isPrefixList ps cs

/-- JavaScript `String.prototype.includes` on character lists. -/
def containsList : List Char → List Char → Bool
  | s, pat =>
    if isPrefixList pat s then true
    else match s with
      | [] => false
      | _ :: cs => containsList cs pat

/-- JavaScript `haystack.includes(needle)`. -/
def jsIncludes (haystack needle : String) : Bool :=
  containsList haystack.data needle.data

/-- Replace the first occurrence of `pat` by `repl`, on character lists
(JavaScript `String.prototype.replace` with a string pattern replaces only
the first occurrence; when the pattern is absent the string is unchanged). -/
def replaceFirstList : List Char → List Char → List Char → List Char
  | s, pat, repl =>
    if isPrefixList pat s then repl ++ s.drop pat.length
    else match s with
      | [] => []
      | c :: cs => c :: replaceFirstList cs pat repl

/-- JavaScript `s.replace(pat, repl)` (first occurrence only). -/
def jsReplace (s pat repl : String) : String :=
  ⟨replaceFirstList s.data pat.data repl.data⟩

/-- Severity of a validation issue (`'error' | 'warning' | 'info'`). -/
inductive Severity where
  | error
  | warning
  | info
deriving DecidableEq, Repr

/-- The `ValidationIssue` interface of the route.  Optional TypeScript
fields (`recordId?`, `recordLink?`, `field?`, `suggestion?`,
`parentRecordId?`) become `Option String`, `none` meaning `undefined`. -/
structure ValidationIssue where
  id : String
  severity : Severity
  title : String
  description : String
  recordId : Option String
  recordLink : Option String
  field : Option String
  suggestion : Option String
  parentRecordId : Option String
deriving DecidableEq, Repr

/-- The `summary` object of a `ValidationResult`. -/
structure Summary where
  errors : Nat
  warnings : Nat
  info : Nat
deriving DecidableEq, Repr

/-- The `ValidationResult` interface of the route.  `selectedRecordNames`
is an optional `Record<string,string>`, modelled as an association list;
`none` means the field is absent from the JSON object. -/
structure ValidationResult where
  isValid : Bool
  hasErrors : Bool
  hasWarnings : Bool
  issues : List ValidationIssue
  summary : Summary
  selectedRecordNames : Option (List (String × String))
deriving DecidableEq, Repr

/-- Outcome of `validateSelectedRecords` (the record-selection pre-check):
a validity flag, error strings, and the invalid record ids, index-aligned
with the errors. -/
structure RecordValidationOutcome where
  valid : Bool
  errors : List String
  invalidRecords : List String
deriving DecidableEq, Repr

/-- One entry of the validation engine's `errors` / `warnings` / `info`
sequences: a pre-formatted check name and message plus optional record
linkage.  Optional fields are `Option String`; the route normalises falsy
values with `|| undefined`, handled by `jsOrUndefined` below. -/
structure CheckResult where
  checkName : String
  message : String
  recordId : Option String
  recordLink : Option String
  suggestedAction : Option String
  parentRecordId : Option String
deriving DecidableEq, Repr

/-- The validation engine's result: three classified sequences. -/
structure EngineResult where
  errors : List CheckResult
  warnings : List CheckResult
  info : List CheckResult
deriving DecidableEq, Repr

/-- JavaScript `x || undefined` on an optional string: the empty string is
falsy and collapses to `undefined`. -/
def jsOrUndefined : Option String → Option String
  | none => none
  | some s => if s = "" then none else some s

/-- The parsed JSON request body.  `none` models an absent (or `null`)
field; JavaScript falsiness of supplied values is handled at use sites. -/
structure RequestBody where
  sourceOrgId : Option String
  targetOrgId : Option String
  templateId : Option String
  selectedRecords : Option (List String)
  selectedRecordNames : Option (List (String × String))
deriving DecidableEq, Repr

/-- An organisation row: the route only reads `instance_url`. -/
structure Org where
  instance_url : String
deriving DecidableEq, Repr

/-- Extraction configuration of an ETL step; the route reads
`objectApiName` (optional, and the empty string is falsy under `||`). -/
structure ExtractConfig where
  objectApiName : Option String
deriving DecidableEq, Repr

/-- One ETL step of a template (`extractConfig` may be absent). -/
structure EtlStep where
  extractConfig : Option ExtractConfig
deriving DecidableEq, Repr

/-- A template: an ordered list of ETL steps. -/
structure Template where
  etlSteps : List EtlStep
deriving DecidableEq, Repr

/-- The expected object API name,
`template.etlSteps[0]?.extractConfig?.objectApiName ||
'tc9_et__Interpretation_Rule__c'` — optional chaining with a falsy
fallback. -/
def expectedObjectApiName (t : Template) : String :=
  match t.etlSteps.head? with
  | none => "tc9_et__Interpretation_Rule__c"
  | some step =>
    match step.extractConfig with
    | none => "tc9_et__Interpretation_Rule__c"
    | some cfg =>
      match cfg.objectApiName with
      | none => "tc9_et__Interpretation_Rule__c"
      | some s => if s = "" then "tc9_et__Interpretation_Rule__c" else s

/-- Environment of external collaborators.  Fallible calls return
`Except String α`: `.error m` models a thrown `Error` with message `m`.
`track` bundles `requireAuth` plus `usageTracker.trackEvent` (the route
swallows any failure of this pair). -/
structure Env where
  findOrg : String → Except String (Option Org)
  getTemplate : String → Option Template
  validateRecords : String → List String → String → Except String RecordValidationOutcome
  runEngine : Template → String → String → List String → String → Except String EngineResult
  track : Except String Unit

/-- Trace of collaborator invocations made while handling one request. -/
structure Calls where
  orgLookups : List String
  templateLookups : List String
  recordChecks : Nat
  engineCalls : Nat
  trackCalls : Nat
deriving DecidableEq, Repr

/-- The empty call trace. -/
def emptyCalls : Calls := ⟨[], [], 0, 0, 0⟩

/-- Shapes of the JSON bodies the route can return. -/
inductive ApiBody where
  | errObj (error : String)
  | result (success : Bool) (validation : ValidationResult)
  | tokenErr (error code reconnectUrl : String)
  | internalErr (error details : String)
deriving DecidableEq, Repr

/-- An HTTP response: status code and JSON body
(`NextResponse.json` defaults to status 200). -/
structure ApiResponse where
  status : Nat
  body : ApiBody
deriving DecidableEq, Repr

/-- JavaScript falsiness of an optional string field (`!x` is `true` for
`undefined`, `null`, and the empty string). -/
def strFalsy : Option String → Bool
  | none => true
  | some s => s = ""

/-- JavaScript `!selectedRecords?.length`: absent array or zero length. -/
def recordsMissing : Option (List String) → Bool
  | none => true
  | some l => l.length == 0

/-- The required-parameter check
`!sourceOrgId || !targetOrgId || !templateId || !selectedRecords?.length`. -/
def missingParams (req : RequestBody) : Bool :=
  strFalsy req.sourceOrgId || strFalsy req.targetOrgId ||
    strFalsy req.templateId || recordsMissing req.selectedRecords

/-- The route's token-error pattern check on a propagated error message. -/
def isTokenErrorMessage (m : String) : Bool :=
  jsIncludes m "invalid_grant" ||
  jsIncludes m "expired" ||
  jsIncludes m "INVALID_SESSION_ID" ||
  jsIncludes m "Authentication token has expired" ||
  jsIncludes m "not connected"

/-- The route's top-level `catch` handler for a thrown `Error` with
message `m`: token-pattern errors map to 401 `TOKEN_EXPIRED`, everything
else to a generic 500. -/
def handleThrown (m : String) : ApiResponse :=
  if isTokenErrorMessage m then
    ⟨401, .tokenErr "Authentication token has expired. Please reconnect the organisation."
      "TOKEN_EXPIRED" "/orgs"⟩
  else
    ⟨500, .internalErr "Validation failed" m⟩

/-- Like `List.map` but passing the element index, starting at `start`
(models JavaScript `forEach((x, index) => ...)` / `map((x, index) => ...)`). -/
def mapWithIndex (f : Nat → α → β) : Nat → List α → List β
  | _, [] => []
  | i, a :: as => f i a :: mapWithIndex f (i + 1) as

/-- One short-circuit issue built from the record pre-check: entry `index`
of `recordValidation.errors`, with `recordId` read (possibly out of range)
from the parallel `invalidRecords` array. -/
def mkRecordSelectionIssue (rv : RecordValidationOutcome) (index : Nat) (error : String) :
    ValidationIssue :=
  { id := "record-validation-error-" ++ toString index
    severity := .error
    title := "Invalid Record Selection"
    description := error
    recordId := rv.invalidRecords.get? index
    recordLink := none
    field := none
    suggestion := some "Ensure the selected record exists and is of the correct type"
    parentRecordId := none }

/-- The short-circuit `ValidationResult` returned when record selection
is invalid. -/
def shortCircuitResult (rv : RecordValidationOutcome)
    (selectedRecordNames : Option (List (String × String))) : ValidationResult :=
  let issues := mapWithIndex (mkRecordSelectionIssue rv) 0 rv.errors
  { isValid := false
    hasErrors := true
    hasWarnings := false
    issues := issues
    summary := { errors := issues.length, warnings := 0, info := 0 }
    selectedRecordNames := some (selectedRecordNames.getD []) }

/-- The `field` derivation applied to an engine error's check name:
`checkName.includes('Invalid') && checkName.includes('Values') ?
checkName.replace('Invalid ', '').replace(' Values', '') : undefined`. -/
def fieldOfCheckName (name : String) : Option String :=
  if jsIncludes name "Invalid" && jsIncludes name "Values" then
    some (jsReplace (jsReplace name "Invalid " "") " Values" "")
  else
    none

/-- Conversion of engine error `index` to the unified issue shape. -/
def mkErrorIssue (index : Nat) (e : CheckResult) : ValidationIssue :=
  { id := "error-" ++ toString index
    severity := .error
    title := e.checkName
    description := e.message
    recordId := jsOrUndefined e.recordId
    recordLink := jsOrUndefined e.recordLink
    field := fieldOfCheckName e.checkName
    suggestion := jsOrUndefined e.suggestedAction
    parentRecordId := jsOrUndefined e.parentRecordId }

/-- Conversion of engine warning `index` to the unified issue shape. -/
def mkWarningIssue (index : Nat) (w : CheckResult) : ValidationIssue :=
  { id := "warning-" ++ toString index
    severity := .warning
    title := w.checkName
    description := w.message
    recordId := jsOrUndefined w.recordId
    recordLink := jsOrUndefined w.recordLink
    field := none
    suggestion := jsOrUndefined w.suggestedAction
    parentRecordId := jsOrUndefined w.parentRecordId }

/-- Conversion of engine info entry `index` to the unified issue shape. -/
def mkInfoIssue (index : Nat) (info : CheckResult) : ValidationIssue :=
  { id := "info-" ++ toString index
    severity := .info
    title := info.checkName
    description := info.message
    recordId := jsOrUndefined info.recordId
    recordLink := jsOrUndefined info.recordLink
    field := none
    suggestion := jsOrUndefined info.suggestedAction
    parentRecordId := jsOrUndefined info.parentRecordId }

/-- The fixed large-batch warning appended when more than 200 records are
selected (`n` is `selectedRecords.length`). -/
def largeBatchIssue (n : Nat) : ValidationIssue :=
  { id := "large-batch-warning"
    severity := .warning
    title := "Large Number of Records Selected"
    description := "You have selected " ++ toString n ++
      " records. Large migrations may take longer and have higher failure rates."
    recordId := none
    recordLink := none
    field := none
    suggestion := some "Consider breaking this into smaller batches for better reliability."
    parentRecordId := none }

/-- The combined issue list of the engine path: errors, then warnings,
then info, then (for more than 200 selected records) the large-batch
warning. -/
def buildIssues (er : EngineResult) (recordCount : Nat) : List ValidationIssue :=
  mapWithIndex mkErrorIssue 0 er.errors ++
  mapWithIndex mkWarningIssue 0 er.warnings ++
  mapWithIndex mkInfoIssue 0 er.info ++
  (if recordCount > 200 then [largeBatchIssue recordCount] else [])

/-- Summary counts computed by partitioning the issue list on severity. -/
def summarize (issues : List ValidationIssue) : Summary :=
  { errors := (issues.filter fun i => i.severity == Severity.error).length
    warnings := (issues.filter fun i => i.severity == Severity.warning).length
    info := (issues.filter fun i => i.severity == Severity.info).length }

/-- The engine-path `ValidationResult`. -/
def engineValidationResult (er : EngineResult) (recordCount : Nat)
    (selectedRecordNames : Option (List (String × String))) : ValidationResult :=
  let issues := buildIssues er recordCount
  let summary := summarize issues
  { isValid := summary.errors == 0
    hasErrors := summary.errors > 0
    hasWarnings := summary.warnings > 0
    issues := issues
    summary := summary
    selectedRecordNames := some (selectedRecordNames.getD []) }

/-- Stage of the handler after the engine pre-conditions hold: invoke the
engine, build the result, attempt usage tracking (outcome swallowed), and
return 200 `success:true`. -/
def runEngineStage (req : RequestBody) (env : Env) (sourceOrg : Org)
    (template : Template) (calls : Calls) : ApiResponse × Calls :=
  let calls := { calls with engineCalls := calls.engineCalls + 1 }
  match env.runEngine template (req.sourceOrgId.getD "") (req.targetOrgId.getD "")
      (req.selectedRecords.getD []) sourceOrg.instance_url with
  | .error m => (handleThrown m, calls)
  | .ok er =>
    let validationResult :=
      engineValidationResult er (req.selectedRecords.getD []).length req.selectedRecordNames
    let calls := { calls with trackCalls := calls.trackCalls + 1 }
    let _ := env.track
    (⟨200, .result true validationResult⟩, calls)

/-- Stage of the handler after the template is resolved: run the
record-selection pre-check and either short-circuit or continue to the
engine. -/
def recordCheckStage (req : RequestBody) (env : Env) (sourceOrg : Org)
    (template : Template) (calls : Calls) : ApiResponse × Calls :=
  let calls := { calls with recordChecks := calls.recordChecks + 1 }
  match env.validateRecords (req.sourceOrgId.getD "") (req.selectedRecords.getD [])
      (expectedObjectApiName template) with
  | .error m => (handleThrown m, calls)
  | .ok rv =>
    if !rv.valid then
      (⟨200, .result false (shortCircuitResult rv req.selectedRecordNames)⟩, calls)
    else
      runEngineStage req env sourceOrg template calls

/-- Stage of the handler after both organisations are resolved: look up
the template. -/
def templateStage (req : RequestBody) (env : Env) (sourceOrg : Org)
    (calls : Calls) : ApiResponse × Calls :=
  let calls := { calls with templateLookups := [req.templateId.getD ""] }
  match env.getTemplate (req.templateId.getD "") with
  | none => (⟨404, .errObj "Template not found"⟩, calls)
  | some template => recordCheckStage req env sourceOrg template calls

/-- Stage of the handler after the required-parameter check: resolve both
organisations concurrently (both lookups are issued; a rejection of either
propagates to the top-level catch). -/
def orgStage (req : RequestBody) (env : Env) : ApiResponse × Calls :=
  let calls : Calls := { emptyCalls with
    orgLookups := [req.sourceOrgId.getD "", req.targetOrgId.getD ""] }
  match env.findOrg (req.sourceOrgId.getD ""), env.findOrg (req.targetOrgId.getD "") with
  | .error m, _ => (handleThrown m, calls)
  | .ok _, .error m => (handleThrown m, calls)
  | .ok none, .ok _ => (⟨404, .errObj "Source or target organisation not found"⟩, calls)
  | .ok (some _), .ok none =>
    (⟨404, .errObj "Source or target organisation not found"⟩, calls)
  | .ok (some sourceOrg), .ok (some _) => templateStage req env sourceOrg calls

/-- The `POST` handler of `/api/migrations/validate`, as a pure function
of the parsed request body and the collaborator environment, returning the
HTTP response and the trace of collaborator calls made. -/
def POST (req : RequestBody) (env : Env) : ApiResponse × Calls :=
  if missingParams req then
    (⟨400, .errObj "Missing required validation parameters"⟩, emptyCalls)
  else
    orgStage req env

/-- Suffix test on character lists, via `isPrefixList` on reversals. -/
def isSuffixList (pat s : List Char) : Bool :=
  isPrefixList pat.reverse s.reverse

/-- Modelled from the spec: the claimed `field` derivation — the title
matches the `Invalid … Values` naming pattern (fixed prefix `"Invalid "`
and fixed suffix `" Values"`), and `field` is the title with that prefix
and suffix stripped; a non-matching title leaves `field` unset.  Stated
for comparison with the code's `fieldOfCheckName`. -/
def specFieldRule (title : String) : Option String :=
  if isPrefixList "Invalid ".data title.data && isSuffixList " Values".data title.data then
    some ⟨(((title.data.drop "Invalid ".length).reverse.drop " Values".length).reverse)⟩
  else
    none

/-- A concrete organisation used by witnesses. -/
def demoOrg : Org := ⟨"https://example.my.salesforce.com"⟩

/-- A concrete template used by witnesses. -/
def demoTemplate : Template := ⟨[⟨some ⟨some "tc9_et__Interpretation_Rule__c"⟩⟩]⟩

/-- A concrete well-formed request body used by witnesses. -/
def demoReq : RequestBody :=
  ⟨some "org-src", some "org-tgt", some "tmpl-1", some ["rec1", "rec2"], none⟩

/-- A concrete request selecting 201 records (large-batch threshold). -/
def demoBigReq : RequestBody :=
  ⟨some "org-src", some "org-tgt", some "tmpl-1", some (List.replicate 201 "rec"), none⟩

/-- A concrete environment whose pre-check returns `rv` and whose engine
returns `er`; all other collaborators succeed. -/
def mkEnv (rv : RecordValidationOutcome) (er : EngineResult) : Env :=
  { findOrg := fun _ => .ok (some demoOrg)
    getTemplate := fun _ => some demoTemplate
    validateRecords := fun _ _ _ => .ok rv
    runEngine := fun _ _ _ _ _ => .ok er
    track := .ok () }

/-- A concrete environment whose organisation lookup throws with message `m`. -/
def throwingEnv (m : String) : Env :=
  { findOrg := fun _ => .error m
    getTemplate := fun _ => some demoTemplate
    validateRecords := fun _ _ _ => .error m
    runEngine := fun _ _ _ _ _ => .error m
    track := .ok () }

/-- A passing record pre-check outcome. -/
def passRV : RecordValidationOutcome := ⟨true, [], []⟩

/-- A failing record pre-check outcome with one invalid record. -/
def failRV : RecordValidationOutcome :=
  ⟨false, ["Record rec1 does not exist in the source org"], ["rec1"]⟩

/-- The empty engine result. -/
def emptyEngine : EngineResult := ⟨[], [], []⟩

/-- An engine result with one error whose check name contains `Invalid`
and `Values` but is not of the `Invalid … Values` shape. -/
def oddTitleEngine : EngineResult :=
  ⟨[⟨"No Values Are Invalid", "some message", none, none, none, none⟩], [], []⟩

/-- An engine result with one error and two warnings. -/
def mixedEngine : EngineResult :=
  ⟨[⟨"Invalid Pay Code Values", "bad pay code", some "rec1", none, some "fix it", none⟩],
   [⟨"Missing Description", "w1", none, none, none, none⟩,
    ⟨"Missing Description", "w2", none, none, none, none⟩],
   []⟩

/-- Contract of the record-selection validator, modelled from the spec
(§4.1): an identifier failing a check is collected together with a
corresponding error message, and a valid outcome has empty arrays — hence
an invalid outcome carries at least one error message.  The validator's
own code is outside this slice. -/
def EnvRecordContract (env : Env) : Prop :=
  ∀ orgId recs obj rv, env.validateRecords orgId recs obj = Except.ok rv →
    rv.valid = false → rv.errors ≠ []

theorem mapWithIndex_length (f : Nat → α → β) (i : Nat) (l : List α) :
    (mapWithIndex f i l).length = l.length := by
  induction l generalizing i with
  | nil => rfl
  | cons a as ih => simp [mapWithIndex, ih]

theorem mapWithIndex_get? (f : Nat → α → β) (i j : Nat) (l : List α) :
    (mapWithIndex f i l).get? j = (l.get? j).map (f (i + j)) := by
  induction l generalizing i j with
  | nil => simp [mapWithIndex]
  | cons a as ih =>
    cases j with
    | zero => simp [mapWithIndex]
    | succ j =>
      simp only [mapWithIndex, List.get?_cons_succ, ih (i + 1) j]
      have : i + 1 + j = i + (j + 1) := by omega
      rw [this]

theorem mapWithIndex_forall {f : Nat → α → β} {p : β → Prop}
    (h : ∀ j a, p (f j a)) (i : Nat) (l : List α) :
    ∀ b ∈ mapWithIndex f i l, p b := by
  induction l generalizing i with
  | nil => intro b hb; simp [mapWithIndex] at hb
  | cons a as ih =>
    intro b hb
    simp only [mapWithIndex, List.mem_cons] at hb
    rcases hb with hb | hb
    · exact hb ▸ h i a
    · exact ih (i + 1) b hb

theorem mapWithIndex_map (f : Nat → α → β) (g : β → γ) (h : α → γ)
    (hc : ∀ j a, g (f j a) = h a) (i : Nat) (l : List α) :
    (mapWithIndex f i l).map g = l.map h := by
  induction l generalizing i with
  | nil => rfl
  | cons a as ih => simp [mapWithIndex, hc, ih]

theorem mapWithIndex_filter_pos (f : Nat → α → ValidationIssue)
    (p : ValidationIssue → Bool) (hp : ∀ j a, p (f j a) = true) (i : Nat) (l : List α) :
    (mapWithIndex f i l).filter p = mapWithIndex f i l :=
  List.filter_eq_self.mpr (mapWithIndex_forall (fun j a => hp j a) i l)

theorem mapWithIndex_filter_neg (f : Nat → α → ValidationIssue)
    (p : ValidationIssue → Bool) (hp : ∀ j a, p (f j a) = false) (i : Nat) (l : List α) :
    (mapWithIndex f i l).filter p = [] := by
  rw [List.filter_eq_nil_iff]
  exact mapWithIndex_forall (p := fun b => ¬ p b = true) (fun j a => by simp [hp j a]) i l

theorem ne_of_data_head_ne {a b : String} (h : a.data.head? ≠ b.data.head?) : a ≠ b :=
  fun e => h (e ▸ rfl)

theorem errorId_ne_largeBatch (n : Nat) : ("error-" ++ toString n : String) ≠ "large-batch-warning" := by
  apply ne_of_data_head_ne
  rw [String.data_append "error-" (toString n)]
  intro h
  exact absurd h (by simp)

theorem warningId_ne_largeBatch (n : Nat) :
    ("warning-" ++ toString n : String) ≠ "large-batch-warning" := by
  apply ne_of_data_head_ne
  rw [String.data_append "warning-" (toString n)]
  intro h
  exact absurd h (by simp)

theorem infoId_ne_largeBatch (n : Nat) :
    ("info-" ++ toString n : String) ≠ "large-batch-warning" := by
  apply ne_of_data_head_ne
  rw [String.data_append "info-" (toString n)]
  intro h
  exact absurd h (by simp)

theorem summarize_buildIssues (er : EngineResult) (n : Nat) :
    summarize (buildIssues er n) =
      ⟨er.errors.length, er.warnings.length + (if 200 < n then 1 else 0), er.info.length⟩ := by
  have he1 := mapWithIndex_filter_pos mkErrorIssue
    (fun i => i.severity == Severity.error) (fun _ _ => rfl) 0 er.errors
  have he2 := mapWithIndex_filter_neg mkWarningIssue
    (fun i => i.severity == Severity.error) (fun _ _ => rfl) 0 er.warnings
  have he3 := mapWithIndex_filter_neg mkInfoIssue
    (fun i => i.severity == Severity.error) (fun _ _ => rfl) 0 er.info
  have hw1 := mapWithIndex_filter_neg mkErrorIssue
    (fun i => i.severity == Severity.warning) (fun _ _ => rfl) 0 er.errors
  have hw2 := mapWithIndex_filter_pos mkWarningIssue
    (fun i => i.severity == Severity.warning) (fun _ _ => rfl) 0 er.warnings
  have hw3 := mapWithIndex_filter_neg mkInfoIssue
    (fun i => i.severity == Severity.warning) (fun _ _ => rfl) 0 er.info
  have hi1 := mapWithIndex_filter_neg mkErrorIssue
    (fun i => i.severity == Severity.info) (fun _ _ => rfl) 0 er.errors
  have hi2 := mapWithIndex_filter_neg mkWarningIssue
    (fun i => i.severity == Severity.info) (fun _ _ => rfl) 0 er.warnings
  have hi3 := mapWithIndex_filter_pos mkInfoIssue
    (fun i => i.severity == Severity.info) (fun _ _ => rfl) 0 er.info
  unfold summarize buildIssues
  simp only [List.filter_append, he1, he2, he3, hw1, hw2, hw3, hi1, hi2, hi3,
    List.length_append, mapWithIndex_length, List.length_nil]
  by_cases h : 200 < n
  · simp [h, List.filter_cons, List.filter_nil, largeBatchIssue]
  · simp [h]

theorem POST_missing (req : RequestBody) (env : Env) (h : missingParams req = true) :
    POST req env = (⟨400, .errObj "Missing required validation parameters"⟩, emptyCalls) := by
  simp [POST, h]

theorem POST_shortCircuit (req : RequestBody) (env : Env) (srcOrg tgtOrg : Org)
    (t : Template) (rv : RecordValidationOutcome)
    (hp : missingParams req = false)
    (hsrc : env.findOrg (req.sourceOrgId.getD "") = .ok (some srcOrg))
    (htgt : env.findOrg (req.targetOrgId.getD "") = .ok (some tgtOrg))
    (ht : env.getTemplate (req.templateId.getD "") = some t)
    (hrv : env.validateRecords (req.sourceOrgId.getD "") (req.selectedRecords.getD [])
      (expectedObjectApiName t) = .ok rv)
    (hinv : rv.valid = false) :
    POST req env =
      (⟨200, .result false (shortCircuitResult rv req.selectedRecordNames)⟩,
       ⟨[req.sourceOrgId.getD "", req.targetOrgId.getD ""], [req.templateId.getD ""], 1, 0, 0⟩) := by
  simp [POST, orgStage, templateStage, recordCheckStage, hp, hsrc, htgt, ht, hrv, hinv,
    emptyCalls]

theorem POST_engine (req : RequestBody) (env : Env) (srcOrg tgtOrg : Org)
    (t : Template) (rv : RecordValidationOutcome) (er : EngineResult)
    (hp : missingParams req = false)
    (hsrc : env.findOrg (req.sourceOrgId.getD "") = .ok (some srcOrg))
    (htgt : env.findOrg (req.targetOrgId.getD "") = .ok (some tgtOrg))
    (ht : env.getTemplate (req.templateId.getD "") = some t)
    (hrv : env.validateRecords (req.sourceOrgId.getD "") (req.selectedRecords.getD [])
      (expectedObjectApiName t) = .ok rv)
    (hvalid : rv.valid = true)
    (her : env.runEngine t (req.sourceOrgId.getD "") (req.targetOrgId.getD "")
      (req.selectedRecords.getD []) srcOrg.instance_url = .ok er) :
    POST req env =
      (⟨200, .result true (engineValidationResult er (req.selectedRecords.getD []).length
          req.selectedRecordNames)⟩,
       ⟨[req.sourceOrgId.getD "", req.targetOrgId.getD ""], [req.templateId.getD ""], 1, 1, 1⟩) := by
  simp [POST, orgStage, templateStage, recordCheckStage, runEngineStage, hp, hsrc, htgt, ht,
    hrv, hvalid, her, emptyCalls]

theorem handleThrown_ne_result (m : String) (s : Bool) (v : ValidationResult) :
    (handleThrown m).body ≠ ApiBody.result s v := by
  unfold handleThrown
  split <;> simp

theorem POST_response_cases (req : RequestBody) (env : Env) :
    (∃ m, (POST req env).1 = handleThrown m) ∨
    (∃ e, (POST req env).1 = ⟨400, .errObj e⟩) ∨
    (∃ e, (POST req env).1 = ⟨404, .errObj e⟩) ∨
    (∃ rv, (∃ a b c, env.validateRecords a b c = Except.ok rv) ∧ rv.valid = false ∧
      (POST req env).1 = ⟨200, .result false (shortCircuitResult rv req.selectedRecordNames)⟩) ∨
    (∃ er, (POST req env).1 = ⟨200, .result true (engineValidationResult er
        (req.selectedRecords.getD []).length req.selectedRecordNames)⟩) := by
  by_cases hp : missingParams req
  · exact Or.inr (Or.inl ⟨"Missing required validation parameters", by simp [POST, hp]⟩)
  have hp' : missingParams req = false := by simpa using hp
  rcases hsrc : env.findOrg (req.sourceOrgId.getD "") with m | osrc
  · exact Or.inl ⟨m, by simp [POST, hp', orgStage, hsrc]⟩
  rcases htgt : env.findOrg (req.targetOrgId.getD "") with m | otgt
  · exact Or.inl ⟨m, by simp [POST, hp', orgStage, hsrc, htgt]⟩
  cases osrc with
  | none =>
    exact Or.inr (Or.inr (Or.inl ⟨"Source or target organisation not found",
      by simp [POST, hp', orgStage, hsrc, htgt]⟩))
  | some srcOrg =>
  cases otgt with
  | none =>
    exact Or.inr (Or.inr (Or.inl ⟨"Source or target organisation not found",
      by simp [POST, hp', orgStage, hsrc, htgt]⟩))
  | some tgtOrg =>
  rcases ht : env.getTemplate (req.templateId.getD "") with _ | t
  · exact Or.inr (Or.inr (Or.inl ⟨"Template not found",
      by simp [POST, hp', orgStage, templateStage, hsrc, htgt, ht]⟩))
  rcases hrv : env.validateRecords (req.sourceOrgId.getD "") (req.selectedRecords.getD [])
      (expectedObjectApiName t) with m | rv
  · exact Or.inl ⟨m,
      by simp [POST, hp', orgStage, templateStage, recordCheckStage, hsrc, htgt, ht, hrv]⟩
  by_cases hv : rv.valid
  · rcases her : env.runEngine t (req.sourceOrgId.getD "") (req.targetOrgId.getD "")
        (req.selectedRecords.getD []) srcOrg.instance_url with m | er
    · exact Or.inl ⟨m, by simp [POST, hp', orgStage, templateStage, recordCheckStage,
        runEngineStage, hsrc, htgt, ht, hrv, hv, her]⟩
    · exact Or.inr (Or.inr (Or.inr (Or.inr ⟨er,
        by simp [POST, hp', orgStage, templateStage, recordCheckStage, runEngineStage,
          hsrc, htgt, ht, hrv, hv, her]⟩)))
  · have hv' : rv.valid = false := by simpa using hv
    exact Or.inr (Or.inr (Or.inr (Or.inl ⟨rv, ⟨_, _, _, hrv⟩, hv',
      by simp [POST, hp', orgStage, templateStage, recordCheckStage, hsrc, htgt, ht, hrv, hv']⟩)))

theorem POST_result_shape {req : RequestBody} {env : Env} {s : Bool} {v : ValidationResult}
    (h : (POST req env).1.body = ApiBody.result s v) :
    (POST req env).1.status = 200 ∧
    ((∃ rv, (∃ a b c, env.validateRecords a b c = Except.ok rv) ∧ rv.valid = false ∧
        s = false ∧ v = shortCircuitResult rv req.selectedRecordNames) ∨
     (∃ er, s = true ∧ v = engineValidationResult er
        (req.selectedRecords.getD []).length req.selectedRecordNames)) := by
  rcases POST_response_cases req env with ⟨m, hm⟩ | ⟨e, he⟩ | ⟨e, he⟩ |
      ⟨rv, hrv, hv, hr⟩ | ⟨er, hr⟩
  · rw [hm] at h; exact absurd h (handleThrown_ne_result m s v)
  · rw [he] at h; simp at h
  · rw [he] at h; simp at h
  · rw [hr] at h
    simp only [ApiBody.result.injEq] at h
    exact ⟨by rw [hr], Or.inl ⟨rv, hrv, hv, h.1.symm, h.2.symm⟩⟩
  · rw [hr] at h
    simp only [ApiBody.result.injEq] at h
    exact ⟨by rw [hr], Or.inr ⟨er, h.1.symm, h.2.symm⟩⟩

theorem mkEnv_contract (er : EngineResult) : EnvRecordContract (mkEnv passRV er) := by
  intro a b c rv hrv hinv
  simp only [mkEnv, Except.ok.injEq] at hrv
  rw [← hrv] at hinv
  simp [passRV] at hinv

/-- C1: for every `ValidationResult` returned in a 200 response (both the
record-selection short-circuit path and the engine path), `isValid` holds
iff `summary.errors == 0`, `hasErrors` iff `summary.errors > 0`, and
`hasWarnings` iff `summary.warnings > 0`. -/
theorem c1_validation_flags (req : RequestBody) (env : Env)
    (hc : EnvRecordContract env) (s : Bool) (v : ValidationResult)
    (h : (POST req env).1.body = ApiBody.result s v) :
    (v.isValid = true ↔ v.summary.errors = 0) ∧
    (v.hasErrors = true ↔ 0 < v.summary.errors) ∧
    (v.hasWarnings = true ↔ 0 < v.summary.warnings) := by
  rcases (POST_result_shape h).2 with ⟨rv, ⟨a, b, c, hrv⟩, hinv, _, hveq⟩ | ⟨er, _, hveq⟩
  · subst hveq
    have hne : rv.errors ≠ [] := hc a b c rv hrv hinv
    have hlen : 0 < rv.errors.length := List.length_pos.mpr hne
    have hsum : (shortCircuitResult rv req.selectedRecordNames).summary.errors =
        rv.errors.length := by
      simp [shortCircuitResult, mapWithIndex_length]
    have hval : (shortCircuitResult rv req.selectedRecordNames).isValid = false := rfl
    have hhe : (shortCircuitResult rv req.selectedRecordNames).hasErrors = true := rfl
    have hhw : (shortCircuitResult rv req.selectedRecordNames).hasWarnings = false := rfl
    have hw0 : (shortCircuitResult rv req.selectedRecordNames).summary.warnings = 0 := rfl
    refine ⟨?_, ?_, ?_⟩
    · rw [hval, hsum]; exact iff_of_false (by simp) (by omega)
    · rw [hhe, hsum]; exact iff_of_true rfl hlen
    · rw [hhw, hw0]; exact iff_of_false (by simp) (by simp)
  · subst hveq
    refine ⟨?_, ?_, ?_⟩ <;> simp [engineValidationResult]

/-- C1 witness: a concrete engine-path request with one error and two
warnings. -/
theorem c1_validation_flags_witness :
    ((engineValidationResult mixedEngine 2 none).isValid = true ↔
      (engineValidationResult mixedEngine 2 none).summary.errors = 0) :=
  (c1_validation_flags demoReq (mkEnv passRV mixedEngine) (mkEnv_contract mixedEngine)
    true (engineValidationResult mixedEngine 2 none) rfl).1

/-- C2: for every `ValidationResult` returned in a 200 response, the
summary counts equal the sizes of the severity partition of the issues
list. -/
theorem c2_summary_partition (req : RequestBody) (env : Env) (s : Bool)
    (v : ValidationResult) (h : (POST req env).1.body = ApiBody.result s v) :
    v.summary.errors = (v.issues.filter fun i => i.severity == Severity.error).length ∧
    v.summary.warnings = (v.issues.filter fun i => i.severity == Severity.warning).length ∧
    v.summary.info = (v.issues.filter fun i => i.severity == Severity.info).length := by
  rcases (POST_result_shape h).2 with ⟨rv, _, _, _, hveq⟩ | ⟨er, _, hveq⟩
  · subst hveq
    have h1 := mapWithIndex_filter_pos (mkRecordSelectionIssue rv)
      (fun i => i.severity == Severity.error) (fun _ _ => rfl) 0 rv.errors
    have h2 := mapWithIndex_filter_neg (mkRecordSelectionIssue rv)
      (fun i => i.severity == Severity.warning) (fun _ _ => rfl) 0 rv.errors
    have h3 := mapWithIndex_filter_neg (mkRecordSelectionIssue rv)
      (fun i => i.severity == Severity.info) (fun _ _ => rfl) 0 rv.errors
    refine ⟨?_, ?_, ?_⟩ <;> simp [shortCircuitResult, h1, h2, h3]
  · subst hveq
    exact ⟨rfl, rfl, rfl⟩

/-- C2 witness: the same concrete engine-path request as C1. -/
theorem c2_summary_partition_witness :
    (engineValidationResult mixedEngine 2 none).summary.errors =
      ((engineValidationResult mixedEngine 2 none).issues.filter
        fun i => i.severity == Severity.error).length :=
  (c2_summary_partition demoReq (mkEnv passRV mixedEngine) true
    (engineValidationResult mixedEngine 2 none) rfl).1

/-- C10: every 200 response carries a `selectedRecordNames` field — the
caller's value echoed unchanged when supplied, and the empty object when
omitted. -/
theorem c10_selected_record_names (req : RequestBody) (env : Env) (s : Bool)
    (v : ValidationResult) (h : (POST req env).1.body = ApiBody.result s v) :
    v.selectedRecordNames = some (req.selectedRecordNames.getD []) ∧
    (∀ ns, req.selectedRecordNames = some ns → v.selectedRecordNames = some ns) ∧
    (req.selectedRecordNames = none → v.selectedRecordNames = some []) := by
  rcases (POST_result_shape h).2 with ⟨rv, _, _, _, hveq⟩ | ⟨er, _, hveq⟩ <;> subst hveq <;>
    exact ⟨rfl, fun ns hns => by simp [shortCircuitResult, engineValidationResult, hns],
      fun hn => by simp [shortCircuitResult, engineValidationResult, hn]⟩

/-- C10 witness: concrete request omitting `selectedRecordNames`. -/
theorem c10_selected_record_names_witness :
    (engineValidationResult emptyEngine 2 none).selectedRecordNames =
      some (demoReq.selectedRecordNames.getD []) :=
  (c10_selected_record_names demoReq (mkEnv passRV emptyEngine) true
    (engineValidationResult emptyEngine 2 none) rfl).1

/-- C3: when the record-selection pre-check returns invalid, the engine is
never invoked and the response is the short-circuit result — one error
issue per pre-check error (index-aligned with `invalidRecords`, title
`Invalid Record Selection`), zero warnings, zero info, `isValid = false`. -/
theorem c3_short_circuit (req : RequestBody) (env : Env) (srcOrg tgtOrg : Org)
    (t : Template) (rv : RecordValidationOutcome)
    (hp : missingParams req = false)
    (hsrc : env.findOrg (req.sourceOrgId.getD "") = .ok (some srcOrg))
    (htgt : env.findOrg (req.targetOrgId.getD "") = .ok (some tgtOrg))
    (ht : env.getTemplate (req.templateId.getD "") = some t)
    (hrv : env.validateRecords (req.sourceOrgId.getD "") (req.selectedRecords.getD [])
      (expectedObjectApiName t) = .ok rv)
    (hinv : rv.valid = false) :
    (POST req env).2.engineCalls = 0 ∧
    (POST req env).1 =
      ⟨200, ApiBody.result false (shortCircuitResult rv req.selectedRecordNames)⟩ ∧
    (shortCircuitResult rv req.selectedRecordNames).issues.length = rv.errors.length ∧
    (∀ iss ∈ (shortCircuitResult rv req.selectedRecordNames).issues,
      iss.severity = Severity.error ∧ iss.title = "Invalid Record Selection") ∧
    (∀ i, ((shortCircuitResult rv req.selectedRecordNames).issues.get? i).map
      ValidationIssue.description = rv.errors.get? i) ∧
    (∀ i, ((shortCircuitResult rv req.selectedRecordNames).issues.get? i).map
      ValidationIssue.recordId = (rv.errors.get? i).map fun _ => rv.invalidRecords.get? i) ∧
    (shortCircuitResult rv req.selectedRecordNames).summary.warnings = 0 ∧
    (shortCircuitResult rv req.selectedRecordNames).summary.info = 0 ∧
    (shortCircuitResult rv req.selectedRecordNames).isValid = false := by
  have hP := POST_shortCircuit req env srcOrg tgtOrg t rv hp hsrc htgt ht hrv hinv
  refine ⟨by rw [hP], by rw [hP], ?_, ?_, ?_, ?_, rfl, rfl, rfl⟩
  · simp [shortCircuitResult, mapWithIndex_length]
  · intro iss hiss
    exact mapWithIndex_forall
      (p := fun b => b.severity = Severity.error ∧ b.title = "Invalid Record Selection")
      (fun j a => ⟨rfl, rfl⟩) 0 rv.errors iss (by simpa [shortCircuitResult] using hiss)
  · intro i
    have hg : (shortCircuitResult rv req.selectedRecordNames).issues.get? i =
        (rv.errors.get? i).map (mkRecordSelectionIssue rv (0 + i)) := by
      simp only [shortCircuitResult]
      exact mapWithIndex_get? (mkRecordSelectionIssue rv) 0 i rv.errors
    rw [hg]
    cases rv.errors.get? i <;> simp [mkRecordSelectionIssue]
  · intro i
    have hg : (shortCircuitResult rv req.selectedRecordNames).issues.get? i =
        (rv.errors.get? i).map (mkRecordSelectionIssue rv (0 + i)) := by
      simp only [shortCircuitResult]
      exact mapWithIndex_get? (mkRecordSelectionIssue rv) 0 i rv.errors
    rw [hg]
    cases rv.errors.get? i <;> simp [mkRecordSelectionIssue]

/-- C3 witness: a concrete invalid pre-check outcome never reaches the
engine. -/
theorem c3_short_circuit_witness :
    (POST demoReq (mkEnv failRV emptyEngine)).2.engineCalls = 0 :=
  (c3_short_circuit demoReq (mkEnv failRV emptyEngine) demoOrg demoOrg demoTemplate failRV
    rfl rfl rfl rfl rfl rfl).1

/-- C4: on the engine path, the issues list contains the
`large-batch-warning` issue (severity `warning`) exactly when more than
200 records are selected, and `isValid` is unaffected by it — it equals
`true` iff the engine reported zero errors. -/
theorem c4_large_batch (req : RequestBody) (env : Env) (srcOrg tgtOrg : Org)
    (t : Template) (rv : RecordValidationOutcome) (er : EngineResult)
    (hp : missingParams req = false)
    (hsrc : env.findOrg (req.sourceOrgId.getD "") = .ok (some srcOrg))
    (htgt : env.findOrg (req.targetOrgId.getD "") = .ok (some tgtOrg))
    (ht : env.getTemplate (req.templateId.getD "") = some t)
    (hrv : env.validateRecords (req.sourceOrgId.getD "") (req.selectedRecords.getD [])
      (expectedObjectApiName t) = .ok rv)
    (hvalid : rv.valid = true)
    (her : env.runEngine t (req.sourceOrgId.getD "") (req.targetOrgId.getD "")
      (req.selectedRecords.getD []) srcOrg.instance_url = .ok er) :
    (POST req env).1 = ⟨200, ApiBody.result true (engineValidationResult er
      (req.selectedRecords.getD []).length req.selectedRecordNames)⟩ ∧
    ((engineValidationResult er (req.selectedRecords.getD []).length
        req.selectedRecordNames).issues.filter (fun iss => iss.id == "large-batch-warning") =
      if 200 < (req.selectedRecords.getD []).length then
        [largeBatchIssue (req.selectedRecords.getD []).length] else []) ∧
    (largeBatchIssue (req.selectedRecords.getD []).length).severity = Severity.warning ∧
    ((engineValidationResult er (req.selectedRecords.getD []).length
        req.selectedRecordNames).isValid = true ↔ er.errors.length = 0) := by
  have hP := POST_engine req env srcOrg tgtOrg t rv er hp hsrc htgt ht hrv hvalid her
  refine ⟨by rw [hP], ?_, rfl, ?_⟩
  · have h1 := mapWithIndex_filter_neg mkErrorIssue
      (fun iss => iss.id == "large-batch-warning")
      (fun j a => beq_eq_false_iff_ne.mpr (errorId_ne_largeBatch j)) 0 er.errors
    have h2 := mapWithIndex_filter_neg mkWarningIssue
      (fun iss => iss.id == "large-batch-warning")
      (fun j a => beq_eq_false_iff_ne.mpr (warningId_ne_largeBatch j)) 0 er.warnings
    have h3 := mapWithIndex_filter_neg mkInfoIssue
      (fun iss => iss.id == "large-batch-warning")
      (fun j a => beq_eq_false_iff_ne.mpr (infoId_ne_largeBatch j)) 0 er.info
    simp only [engineValidationResult, buildIssues, List.filter_append, h1, h2, h3,
      List.nil_append]
    by_cases hn : 200 < (req.selectedRecords.getD []).length
    · simp [hn, List.filter_cons, List.filter_nil, largeBatchIssue]
    · simp [hn]
  · simp [engineValidationResult, summarize_buildIssues]

/-- C4 witness: 201 selected records produce exactly the large-batch
warning. -/
theorem c4_large_batch_witness :
    (engineValidationResult emptyEngine (List.replicate 201 "rec").length none).issues.filter
      (fun iss => iss.id == "large-batch-warning") =
      (if 200 < (List.replicate 201 "rec").length then
        [largeBatchIssue (List.replicate 201 "rec").length] else []) :=
  (c4_large_batch demoBigReq (mkEnv passRV emptyEngine) demoOrg demoOrg demoTemplate passRV
    emptyEngine rfl rfl rfl rfl rfl rfl rfl).2.1

/-- C5: a downstream call that throws an `Error` whose message contains
`INVALID_SESSION_ID` (or `invalid_grant`, `expired`, `not connected`)
yields a 401 response carrying an error string, code `TOKEN_EXPIRED` and a
reconnect URL, instead of propagating the raw provider error. -/
theorem c5_token_expired (req : RequestBody) (env : Env) (m : String)
    (hp : missingParams req = false)
    (hm : (jsIncludes m "INVALID_SESSION_ID" || jsIncludes m "invalid_grant" ||
      jsIncludes m "expired" || jsIncludes m "not connected") = true)
    (hthrow :
      env.findOrg (req.sourceOrgId.getD "") = .error m ∨
      ((∃ o, env.findOrg (req.sourceOrgId.getD "") = .ok o) ∧
        env.findOrg (req.targetOrgId.getD "") = .error m) ∨
      (∃ srcOrg tgtOrg t, env.findOrg (req.sourceOrgId.getD "") = .ok (some srcOrg) ∧
        env.findOrg (req.targetOrgId.getD "") = .ok (some tgtOrg) ∧
        env.getTemplate (req.templateId.getD "") = some t ∧
        env.validateRecords (req.sourceOrgId.getD "") (req.selectedRecords.getD [])
          (expectedObjectApiName t) = .error m) ∨
      (∃ srcOrg tgtOrg t rv, env.findOrg (req.sourceOrgId.getD "") = .ok (some srcOrg) ∧
        env.findOrg (req.targetOrgId.getD "") = .ok (some tgtOrg) ∧
        env.getTemplate (req.templateId.getD "") = some t ∧
        env.validateRecords (req.sourceOrgId.getD "") (req.selectedRecords.getD [])
          (expectedObjectApiName t) = Except.ok rv ∧
        rv.valid = true ∧
        env.runEngine t (req.sourceOrgId.getD "") (req.targetOrgId.getD "")
          (req.selectedRecords.getD []) srcOrg.instance_url = .error m)) :
    (POST req env).1 = ⟨401, .tokenErr
      "Authentication token has expired. Please reconnect the organisation."
      "TOKEN_EXPIRED" "/orgs"⟩ := by
  have htok : isTokenErrorMessage m = true := by
    simp only [isTokenErrorMessage, Bool.or_eq_true]
    simp only [Bool.or_eq_true] at hm
    tauto
  have hresp : (POST req env).1 = handleThrown m := by
    rcases hthrow with h1 | ⟨⟨o, h1⟩, h2⟩ | ⟨s1, t1, tp, h1, h2, h3, h4⟩ |
        ⟨s1, t1, tp, rv, h1, h2, h3, h4, h5, h6⟩
    · simp [POST, hp, orgStage, h1]
    · simp [POST, hp, orgStage, h1, h2]
    · simp [POST, hp, orgStage, templateStage, recordCheckStage, h1, h2, h3, h4]
    · simp [POST, hp, orgStage, templateStage, recordCheckStage, runEngineStage,
        h1, h2, h3, h4, h5, h6]
  rw [hresp]
  simp [handleThrown, htok]

/-- C5 witness: a concrete thrown session error is remapped to 401. -/
theorem c5_token_expired_witness :
    (POST demoReq (throwingEnv "INVALID_SESSION_ID: Session expired or invalid")).1 =
      ⟨401, .tokenErr "Authentication token has expired. Please reconnect the organisation."
        "TOKEN_EXPIRED" "/orgs"⟩ :=
  c5_token_expired demoReq (throwingEnv "INVALID_SESSION_ID: Session expired or invalid")
    "INVALID_SESSION_ID: Session expired or invalid" rfl (by decide) (Or.inl rfl)

/-- C6: a request body missing `sourceOrgId`, `targetOrgId` or
`templateId`, or whose `selectedRecords` array is absent or empty, yields
status 400 and no organisation lookup, template lookup, record pre-check
or engine invocation is performed. -/
theorem c6_missing_params (req : RequestBody) (env : Env)
    (h : req.sourceOrgId = none ∨ req.targetOrgId = none ∨ req.templateId = none ∨
      req.selectedRecords = none ∨ req.selectedRecords = some []) :
    POST req env = (⟨400, .errObj "Missing required validation parameters"⟩, emptyCalls) := by
  apply POST_missing
  rcases h with h | h | h | h | h <;> simp [missingParams, strFalsy, recordsMissing, h]

/-- C6 witness: a request with no `sourceOrgId`. -/
theorem c6_missing_params_witness :
    POST ⟨none, some "org-tgt", some "tmpl-1", some ["rec1"], none⟩
        (mkEnv passRV emptyEngine) =
      (⟨400, .errObj "Missing required validation parameters"⟩, emptyCalls) :=
  c6_missing_params ⟨none, some "org-tgt", some "tmpl-1", some ["rec1"], none⟩
    (mkEnv passRV emptyEngine) (Or.inl rfl)

/-- C7: the HTTP response (status and body) is identical whether the
usage-tracking emission (auth lookup plus `trackEvent`) succeeds or
throws — tracking failures are swallowed and never alter the computed
response. -/
theorem c7_tracking_never_alters_response (req : RequestBody) (env : Env)
    (t1 t2 : Except String Unit) :
    (POST req { env with track := t1 }).1 = (POST req { env with track := t2 }).1 := rfl

/-- C9: a completed validation (pre-check passed) returns 200 with
`success = true` regardless of the verdict, while a record-selection
short-circuit returns 200 with `success = false` — the flag equals the
pre-check's validity, not the verdict. -/
theorem c9_success_flag (req : RequestBody) (env : Env) (srcOrg tgtOrg : Org)
    (t : Template) (rv : RecordValidationOutcome) (er : EngineResult)
    (hp : missingParams req = false)
    (hsrc : env.findOrg (req.sourceOrgId.getD "") = .ok (some srcOrg))
    (htgt : env.findOrg (req.targetOrgId.getD "") = .ok (some tgtOrg))
    (ht : env.getTemplate (req.templateId.getD "") = some t)
    (hrv : env.validateRecords (req.sourceOrgId.getD "") (req.selectedRecords.getD [])
      (expectedObjectApiName t) = .ok rv)
    (heng : rv.valid = true → env.runEngine t (req.sourceOrgId.getD "")
      (req.targetOrgId.getD "") (req.selectedRecords.getD []) srcOrg.instance_url = .ok er) :
    (POST req env).1.status = 200 ∧
    ∃ v, (POST req env).1.body = ApiBody.result rv.valid v := by
  by_cases hv : rv.valid
  · have hP := POST_engine req env srcOrg tgtOrg t rv er hp hsrc htgt ht hrv hv (heng hv)
    rw [hP]
    exact ⟨rfl, ⟨_, by rw [hv]⟩⟩
  · have hv' : rv.valid = false := by simpa using hv
    have hP := POST_shortCircuit req env srcOrg tgtOrg t rv hp hsrc htgt ht hrv hv'
    rw [hP]
    exact ⟨rfl, ⟨_, by rw [hv']⟩⟩

/-- C9 witness: a concrete passing pre-check with an empty engine result. -/
theorem c9_success_flag_witness :
    (POST demoReq (mkEnv passRV emptyEngine)).1.status = 200 ∧
    ∃ v, (POST demoReq (mkEnv passRV emptyEngine)).1.body = ApiBody.result passRV.valid v :=
  c9_success_flag demoReq (mkEnv passRV emptyEngine) demoOrg demoOrg demoTemplate passRV
    emptyEngine rfl rfl rfl rfl rfl (fun _ => rfl)

/-- C8 counterexample: the check name `"No Values Are Invalid"` contains
`Invalid` and `Values` as substrings but does not match the
`Invalid … Values` prefix/suffix pattern (`specFieldRule` yields `none`);
the route nevertheless sets `field` — to `"No Are Invalid"`, the first
occurrences of `"Invalid "` and `" Values"` removed — so `field` is not
set exactly when the pattern matches, nor by prefix/suffix stripping. -/
theorem c8_field_pattern_counterexample :
    (POST demoReq (mkEnv passRV oddTitleEngine)).1.body =
      ApiBody.result true (engineValidationResult oddTitleEngine 2 none) ∧
    (engineValidationResult oddTitleEngine 2 none).issues.map ValidationIssue.field =
      [some "No Are Invalid"] ∧
    specFieldRule "No Values Are Invalid" = none ∧
    some "No Are Invalid" ≠ specFieldRule "No Values Are Invalid" := by
  refine ⟨rfl, by decide, by decide, by decide⟩

/-- C8 (amended): an engine-produced error issue's `field` is set exactly
when its check name contains `Invalid` and contains `Values` as
substrings, in which case `field` is the check name with the first
occurrence of `"Invalid "` and then the first occurrence of `" Values"`
removed; warning and info issues (and the large-batch warning) never carry
a `field`. -/
theorem c8_field_derivation (req : RequestBody) (env : Env) (srcOrg tgtOrg : Org)
    (t : Template) (rv : RecordValidationOutcome) (er : EngineResult)
    (hp : missingParams req = false)
    (hsrc : env.findOrg (req.sourceOrgId.getD "") = .ok (some srcOrg))
    (htgt : env.findOrg (req.targetOrgId.getD "") = .ok (some tgtOrg))
    (ht : env.getTemplate (req.templateId.getD "") = some t)
    (hrv : env.validateRecords (req.sourceOrgId.getD "") (req.selectedRecords.getD [])
      (expectedObjectApiName t) = .ok rv)
    (hvalid : rv.valid = true)
    (her : env.runEngine t (req.sourceOrgId.getD "") (req.targetOrgId.getD "")
      (req.selectedRecords.getD []) srcOrg.instance_url = .ok er) :
    (POST req env).1 = ⟨200, ApiBody.result true (engineValidationResult er
      (req.selectedRecords.getD []).length req.selectedRecordNames)⟩ ∧
    ((engineValidationResult er (req.selectedRecords.getD []).length
        req.selectedRecordNames).issues.map ValidationIssue.field =
      er.errors.map (fun e => fieldOfCheckName e.checkName) ++
      er.warnings.map (fun _ => (none : Option String)) ++
      er.info.map (fun _ => (none : Option String)) ++
      (if 200 < (req.selectedRecords.getD []).length then [(none : Option String)] else [])) ∧
    (∀ name, (fieldOfCheckName name).isSome = true ↔
      (jsIncludes name "Invalid" && jsIncludes name "Values") = true) ∧
    (∀ name, (jsIncludes name "Invalid" && jsIncludes name "Values") = true →
      fieldOfCheckName name =
        some (jsReplace (jsReplace name "Invalid " "") " Values" "")) := by
  have hP := POST_engine req env srcOrg tgtOrg t rv er hp hsrc htgt ht hrv hvalid her
  refine ⟨by rw [hP], ?_, ?_, ?_⟩
  · have h1 := mapWithIndex_map mkErrorIssue ValidationIssue.field
      (fun e => fieldOfCheckName e.checkName) (fun _ _ => rfl) 0 er.errors
    have h2 := mapWithIndex_map mkWarningIssue ValidationIssue.field
      (fun _ => (none : Option String)) (fun _ _ => rfl) 0 er.warnings
    have h3 := mapWithIndex_map mkInfoIssue ValidationIssue.field
      (fun _ => (none : Option String)) (fun _ _ => rfl) 0 er.info
    simp only [engineValidationResult, buildIssues, List.map_append, h1, h2, h3]
    by_cases hn : 200 < (req.selectedRecords.getD []).length
    · simp [hn, largeBatchIssue]
    · simp [hn]
  · intro name
    by_cases hc : (jsIncludes name "Invalid" && jsIncludes name "Values") = true <;>
      simp [fieldOfCheckName, hc]
  · intro name hc
    simp [fieldOfCheckName, hc]

/-- C8 witness: a concrete engine result whose error title is
`Invalid Pay Code Values` and whose warnings carry no `field`. -/
theorem c8_field_derivation_witness :
    (engineValidationResult mixedEngine 2 none).issues.map ValidationIssue.field =
      mixedEngine.errors.map (fun e => fieldOfCheckName e.checkName) ++
      mixedEngine.warnings.map (fun _ => (none : Option String)) ++
      mixedEngine.info.map (fun _ => (none : Option String)) ++
      (if 200 < 2 then [(none : Option String)] else []) :=
  (c8_field_derivation demoReq (mkEnv passRV mixedEngine) demoOrg demoOrg demoTemplate
    passRV mixedEngine rfl rfl rfl rfl rfl rfl rfl).2.1
